import Mathlib

/-!
Shallow embedding of the PER repository's command-execution protocol
(`src/server/colab/terminal-executor.ts`), atomic storage operations
(`src/server/storage/operations.ts`, with constants from
`src/server/storage/constants.ts`), and the storage-integration state
machine (`src/server/storage/storage-integration.ts`).

Conventions of the embedding:
- A `CommandResult` mirrors the TypeScript interface of the same name
  (`extension.ts`): `exitCode` is optional and modelled as `Option Nat`
  (exit codes produced by the executor come from `parseInt` on a digit
  run), `error` as `Option String`.
- A remote endpoint is modelled as a deterministic oracle
  `Exec : String → Except String CommandResult`: for each command line the
  remote either returns a structured result (`.ok`) or the `execute` call
  throws (`.error msg`, the thrown error's message).
- Each operation is embedded as a function returning
  `List String × Except String α`: the list of command lines it passed to
  `executor.execute` (in order, including a final call whose promise
  rejected), together with its own returned value or thrown error.
- Inbound terminal traffic during one `execute` call is modelled as a list
  of events: `chunk s` delivers one already-normalized message payload
  (the result of `prettifyOutput` on the raw payload; normalization is
  per-chunk both in the code and here, so it does not affect marker
  splitting), and `timeoutFire` is the firing of the `setTimeout` armed at
  the start of the call.  Promise semantics: only the first
  resolve/reject is observable, later ones are no-ops.
-/

/-- Result of a command execution (interface `CommandResult`). -/
structure CommandResult where
  success : Bool
  output : String
  exitCode : Option Nat
  error : Option String
deriving Repr, DecidableEq

/-- A remote endpoint as a deterministic oracle: the structured result of a
command line, or the message of the error thrown by `execute`. -/
def Exec : Type := String → Except String CommandResult

/-- The completion marker constant `__CMD_COMPLETE__` of
`terminal-executor.ts`. -/
def MARKER : String := "__CMD_COMPLETE__"

/-- Whether the pattern list `p` occurs literally at the head of `l`. -/
def listStartsWith : List Char → List Char → Bool
  | [], _ => true
  | _ :: _, [] => false
  | p :: ps, c :: cs => p == c && listStartsWith ps cs

/-- Value of a digit list read in base 10 (the `parseInt(match, 10)` of a
`\d+` capture). -/
def digitsToNat (ds : List Char) : Nat :=
  ds.foldl (fun acc c => 10 * acc + (c.toNat - '0'.toNat)) 0

/-- Leftmost match of the regex `__CMD_COMPLETE__:exit=(\d+)` in a
character list: the parsed capture group, or `none` when the pattern does
not occur. -/
def findMarkerExit : List Char → Option Nat
  | [] => none
  | l@(_ :: rest) =>
    if listStartsWith (MARKER ++ ":exit=").toList l then
      let ds := (l.drop (MARKER ++ ":exit=").length).takeWhile Char.isDigit
      if ds.isEmpty then findMarkerExit rest else some (digitsToNat ds)
    else findMarkerExit rest

/-- The function `ColabTerminalExecutor.isCmdDone`: looks for the completion marker
pattern in `output`; `some exitCode` stands for
`\x7b complete: true, exitCode \x7d` and `none` for
`\x7b complete: false \x7d`. -/
def isCmdDone (output : String) : Option Nat :=
  findMarkerExit output.toList

/-- Decidable equality for `Except`, needed to evaluate concrete runs of
the embedded operations. -/
instance {ε α : Type} [DecidableEq ε] [DecidableEq α] :
    DecidableEq (Except ε α) := fun x y => by
  cases x <;> cases y
  case error.error a b =>
    exact if h : a = b then isTrue (by simp [h]) else isFalse (by simp [h])
  case error.ok a b => exact isFalse (by simp)
  case ok.error a b => exact isFalse (by simp)
  case ok.ok a b =>
    exact if h : a = b then isTrue (by simp [h]) else isFalse (by simp [h])

/-- Inbound events observed by one `execute` call: a normalized message
payload, or the firing of the command timeout timer. -/
inductive TermEvent where
  | chunk (s : String)
  | timeoutFire
deriving Repr, DecidableEq

/-- State of one `execute` call: the accumulated output buffer
(`cmdOutput`), the settlement of the returned promise (`none` while
pending; `.ok` a resolution, `.error` a rejection message), and whether
the executor's WebSocket is still open (`isConnected`). -/
structure ExecCallState where
  buffer : String
  settled : Option (Except String CommandResult)
  wsOpen : Bool
deriving Repr, DecidableEq

/-- State at the start of an `execute` call (connection established,
empty buffer, promise pending). -/
def execCallInit : ExecCallState :=
  { buffer := "", settled := none, wsOpen := true }

/-- One step of the `execute` call's event handling, from
`terminal-executor.ts`.  On a message (`outputResponseHandler`): the
normalized chunk is appended to the buffer, then `isCmdDone(chunk)` is
applied to the chunk alone (line 124); on a match the promise is resolved
(first settlement wins) with
`\x7b output: cmdOutput, success: exitCode == 0, exitCode \x7d`.
On the timeout firing: `disconnect()` closes the channel unconditionally
and the promise is rejected with the timeout error (a no-op if already
settled). -/
def execStep (st : ExecCallState) : TermEvent → ExecCallState
  | TermEvent.chunk s =>
    let buffer := st.buffer ++ s
    match isCmdDone s with
    | some exitCode =>
      { buffer := buffer
        settled := match st.settled with
          | some r => some r
          | none => some (Except.ok
              { success := exitCode == 0
                output := buffer
                exitCode := some exitCode
                error := none })
        wsOpen := st.wsOpen }
    | none => { st with buffer := buffer }
  | TermEvent.timeoutFire =>
    { buffer := st.buffer
      settled := match st.settled with
        | some r => some r
        | none => some (Except.error "TIMEOUT: Cmd too long to complete!")
      wsOpen := false }

/-- Run one `execute` call over a list of inbound events. -/
def execRun (evs : List TermEvent) : ExecCallState :=
  evs.foldl execStep execCallInit

/-- Variant of the message step following the spec's words ("scan the
whole accumulated buffer"): `isCmdDone` is applied to the accumulated
buffer instead of the latest chunk.  Used only to contrast with
`execStep`, which follows the code. -/
def execStepBufferScan (st : ExecCallState) : TermEvent → ExecCallState
  | TermEvent.chunk s =>
    let buffer := st.buffer ++ s
    match isCmdDone buffer with
    | some exitCode =>
      { buffer := buffer
        settled := match st.settled with
          | some r => some r
          | none => some (Except.ok
              { success := exitCode == 0
                output := buffer
                exitCode := some exitCode
                error := none })
        wsOpen := st.wsOpen }
    | none => { st with buffer := buffer }
  | TermEvent.timeoutFire =>
    { buffer := st.buffer
      settled := match st.settled with
        | some r => some r
        | none => some (Except.error "TIMEOUT: Cmd too long to complete!")
      wsOpen := false }

/-- Run of the buffer-scanning variant. -/
def execRunBufferScan (evs : List TermEvent) : ExecCallState :=
  evs.foldl execStepBufferScan execCallInit

/-- The per-command timeout `CMD_TIMEOUT` of `terminal-executor.ts`, in
milliseconds. -/
def CMD_TIMEOUT : Nat := 10 * 60 * 1000

/- Path sanitization (`operations.ts`, `sanitizePathForBisync`). -/

/-- First phase of `sanitizePathForBisync`: the regex replace
`[/:] → _` applied to every character. -/
def replaceSlashColon (l : List Char) : List Char :=
  l.map (fun c => if c == '/' || c == ':' then '_' else c)

/-- Second phase: the regex replace `_+ → _`, collapsing each maximal run
of underscores to a single one. -/
def collapseUnderscores : List Char → List Char
  | [] => []
  | c :: cs =>
    let rest := collapseUnderscores cs
    if c == '_' then
      match rest with
      | '_' :: _ => rest
      | _ => c :: rest
    else c :: rest

/-- Third phase: the anchored regex replace `^_+ → (empty)`, removing the
leading run of underscores. -/
def stripLeadingUnderscores : List Char → List Char
  | '_' :: cs => stripLeadingUnderscores cs
  | cs => cs

/-- The function `sanitizePathForBisync` from `operations.ts`: replace `/` and `:` by
`_`, collapse consecutive underscores, remove leading underscores. -/
def sanitizePathForBisync (path : String) : String :=
  ⟨stripLeadingUnderscores (collapseUnderscores (replaceSlashColon path.toList))⟩

/- Storage constants (`src/server/storage/constants.ts`). -/

/-- Default rclone installation URL. -/
def RCLONE_INSTALL_URL : String := "https://rclone.org/install.sh"

/-- Default patterns to exclude from sync operations. -/
def DEFAULT_EXCLUDE_PATTERNS : List String := [".git/**", "*.tmp", "*.swp"]

/-- Default local path for synced projects on Colab servers. -/
def DEFAULT_LOCAL_PATH : String := "/content"

/-- Default safe args for bisync, without resync and dry-run flags. -/
def DEFAULT_SAFE_BISYNC_ARGS : List String :=
  ["--create-empty-src-dirs", "--compare size,modtime,checksum",
   "--slow-hash-sync-only", "--resilient", "-MvP", "--conflict-resolve path2",
   "--max-lock 2m", "--drive-skip-gdocs", "--fix-case"]

/-- Resync flag list: forces the local side to hard-sync with the remote
(path2). -/
def RESYNC_FLAG : List String := ["--resync-mode path2"]

/-- Default rclone config path (the `configPath` default parameter of the
config operations in `operations.ts`). -/
def defaultRcloneConfigPath : String := "~/.config/rclone/rclone.conf"

/- Atomic operations (`src/server/storage/operations.ts`).  Each operation
returns the list of command lines it passed to `executor.execute`, paired
with its value or thrown error. -/

/-- Options for sync operations (interface `SyncOptions`).  `verbose` is
an optional boolean only ever tested for truthiness, modelled as `Bool`. -/
structure SyncOptions where
  remotePath : String
  localPath : String
  excludePatterns : Option (List String)
  verbose : Bool
  additionalFlags : Option (List String)
deriving Repr, DecidableEq

/-- Commands-plus-outcome of one embedded operation. -/
abbrev OpResult (α : Type) : Type := List String × Except String α

/-- One `executor.execute(cmd)` call against the oracle. -/
def opExec (e : Exec) (cmd : String) : OpResult CommandResult := ([cmd], e cmd)

/-- Sequencing of two operations: the first's thrown error propagates
(`await` rethrows), otherwise the second runs and the command logs are
concatenated. -/
def opBind {α β : Type} (x : OpResult α) (f : α → OpResult β) : OpResult β :=
  match x with
  | (cmds, Except.error msg) => (cmds, Except.error msg)
  | (cmds, Except.ok a) =>
    let y := f a
    (cmds ++ y.1, y.2)

/-- Sequencing with the `if (!result.success) return result;` early-return
idiom of `operations.ts` composites: a thrown error propagates, an
unsuccessful result is returned immediately, a successful one continues
with the accumulated command log. -/
def earlyOrStep (acc : List String) (x : OpResult CommandResult)
    (cont : List String → OpResult CommandResult) : OpResult CommandResult :=
  match x with
  | (cmds, Except.error msg) => (acc ++ cmds, Except.error msg)
  | (cmds, Except.ok r) =>
    if r.success then cont (acc ++ cmds) else (acc ++ cmds, Except.ok r)

/-- Build rclone flags from options (`buildRcloneFlags`). -/
def buildRcloneFlags (options : SyncOptions) : String :=
  let flags : List String := if options.verbose then ["-v"] else []
  let excludePatterns := options.excludePatterns.getD DEFAULT_EXCLUDE_PATTERNS
  let flags := flags ++
    excludePatterns.map (fun pattern => "--exclude \"" ++ pattern ++ "\"")
  let flags := flags ++ options.additionalFlags.getD DEFAULT_SAFE_BISYNC_ARGS
  String.intercalate " " flags

/-- Check if rclone is installed on the server (`isRcloneInstalled`): a
thrown executor error is caught and becomes `false`. -/
def isRcloneInstalled (e : Exec) : List String × Bool :=
  match opExec e "command -v rclone" with
  | (cmds, Except.ok result) => (cmds, result.success && result.exitCode == some 0)
  | (cmds, Except.error _) => (cmds, false)

/-- Whether a character can belong to the version capture `[0-9.]+`. -/
def isVersionChar (c : Char) : Bool := c.isDigit || c == '.'

/-- Leftmost match of the regex `rclone v([0-9.]+)`: the capture group, or
`none` when the pattern does not occur. -/
def findRcloneVersion : List Char → Option String
  | [] => none
  | l@(_ :: rest) =>
    if listStartsWith "rclone v".toList l then
      let run := (l.drop "rclone v".length).takeWhile isVersionChar
      if run.isEmpty then findRcloneVersion rest else some ⟨run⟩
    else findRcloneVersion rest

/-- Get rclone version information (`getRcloneVersion`): parses the
version from the output, `none` on failure; a thrown error is caught and
becomes `none`. -/
def getRcloneVersion (e : Exec) : List String × Option String :=
  match opExec e "rclone version" with
  | (cmds, Except.ok result) =>
    (cmds, if result.success then findRcloneVersion result.output.toList else none)
  | (cmds, Except.error _) => (cmds, none)

/-- The rclone installation command line built by `installRclone`. -/
def installCmd : String := "curl \"" ++ RCLONE_INSTALL_URL ++ "\" | sudo bash"

/-- Install rclone on the server (`installRclone`): unless forcing, an
already-installed rclone short-circuits with a synthetic success result
mentioning the parsed version. -/
def installRclone (e : Exec) (forceReinstall : Bool) : OpResult CommandResult :=
  if forceReinstall then opExec e installCmd
  else
    match isRcloneInstalled e with
    | (cmds, true) =>
      let (cmds2, version) := getRcloneVersion e
      (cmds ++ cmds2, Except.ok
        { success := true, exitCode := some 0,
          output := "rclone already installed: " ++ version.getD "unknown version",
          error := none })
    | (cmds, false) =>
      let (cmds2, r) := opExec e installCmd
      (cmds ++ cmds2, r)

/-- Create local directory on the server (`createLocalDir`). -/
def createLocalDir (e : Exec) (localPath : String) : OpResult CommandResult :=
  opExec e ("mkdir -p " ++ localPath)

/-- The regex replace `\/[^\/]+$ → (empty)` used by
`createRcloneConfigDir` to turn the config path into its directory. -/
def dropLastPathComponent (s : String) : String :=
  let r := s.toList.reverse
  let seg := r.takeWhile (fun c => !(c == '/'))
  if seg.isEmpty then s
  else
    match r.drop seg.length with
    | '/' :: restRev => ⟨restRev.reverse⟩
    | _ => s

/-- Create rclone config directory on the server
(`createRcloneConfigDir`). -/
def createRcloneConfigDir (e : Exec) (configPath : String) : OpResult CommandResult :=
  createLocalDir e (dropLastPathComponent configPath)

/-- Upload rclone configuration to the server (`uploadRcloneConfig`):
create the config directory, write the base64-encoded content through
`base64 -d`, then set permissions 600; each step's failure is returned
immediately. -/
def uploadRcloneConfig (e : Exec) (configContent : String) (configPath : String) :
    OpResult CommandResult :=
  opBind (createRcloneConfigDir e configPath) (fun dirResult =>
    if !dirResult.success then ([], Except.ok dirResult)
    else
      opBind (opExec e ("echo " ++ configContent ++ " | base64 -d > " ++ configPath))
        (fun result =>
          if !result.success then ([], Except.ok result)
          else opExec e ("chmod 600 " ++ configPath)))

/-- Check if a remote is accessible (`isRemoteAccessible`): a thrown
error is caught and becomes `false`. -/
def isRemoteAccessible (e : Exec) (remoteName : String) : List String × Bool :=
  match opExec e ("rclone about \"" ++ remoteName ++ ":\" 2>&1") with
  | (cmds, Except.ok result) => (cmds, result.success)
  | (cmds, Except.error _) => (cmds, false)

/-- Create a directory on the remote (`createRemoteDir`). -/
def createRemoteDir (e : Exec) (remotePath : String) : OpResult CommandResult :=
  opExec e ("rclone mkdir \"" ++ remotePath ++ "\"")

/-- Check if a remote directory exists (`remotePathExists`): a thrown
error is caught and becomes `false`. -/
def remotePathExists (e : Exec) (remotePath : String) : List String × Bool :=
  match opExec e ("rclone lsd \"" ++ remotePath ++ "\" 2>&1") with
  | (cmds, Except.ok result) => (cmds, result.success)
  | (cmds, Except.error _) => (cmds, false)

/-- Create check file for bisync access checking (`createCheckFile`). -/
def createCheckFile (e : Exec) (remotePath : String) : OpResult CommandResult :=
  opExec e ("rclone touch \"" ++ remotePath ++ "/RCLONE_TEST\"")

/-- The bisync state file path probed by `bisyncStateExists`
(path1 = local, path2 = remote). -/
def bisyncStateFile (localPath remotePath : String) : String :=
  "$HOME/.cache/rclone/bisync/" ++ sanitizePathForBisync localPath ++ ".."
    ++ sanitizePathForBisync remotePath ++ ".path1.lst"

/-- Check if bisync state exists for a path pair (`bisyncStateExists`): a
thrown error is caught and becomes `false`. -/
def bisyncStateExists (e : Exec) (localPath remotePath : String) : List String × Bool :=
  match opExec e ("test -f " ++ bisyncStateFile localPath remotePath) with
  | (cmds, Except.ok result) => (cmds, result.success)
  | (cmds, Except.error _) => (cmds, false)

/-- The `remotePath.split(':')[0]` of `performInitialResync`: everything
before the first colon (the whole string when there is none). -/
def remoteNameOf (remotePath : String) : String :=
  ⟨remotePath.toList.takeWhile (fun c => !(c == ':'))⟩

/-- Perform initial resync (`performInitialResync`): verify the remote is
accessible, ensure the remote and local directories exist, create the
check file, then run the bisync tool with the resync flags first as a dry
run and then for real; any failing step's result is returned immediately
(`earlyOrStep`). -/
def performInitialResync (e : Exec) (options : SyncOptions) : OpResult CommandResult :=
  let remoteName := remoteNameOf options.remotePath
  let (cmdsA, accessible) :=
    if remoteName.isEmpty then (([] : List String), true)
    else isRemoteAccessible e remoteName
  if !accessible then
    (cmdsA, Except.ok
      { success := false, exitCode := some 1, output := "",
        error := some ("Cannot access remote '" ++ remoteName ++ ":'") })
  else
    let (cmdsB, remoteExists) := remotePathExists e options.remotePath
    let afterRemoteDir : List String → OpResult CommandResult := fun acc =>
      earlyOrStep acc (createLocalDir e options.localPath) (fun acc =>
        earlyOrStep acc (createCheckFile e options.remotePath) (fun acc =>
          let optionsWithResync :=
            { options with
              additionalFlags := some ((options.additionalFlags.getD []) ++ RESYNC_FLAG) }
          let flags := buildRcloneFlags optionsWithResync
          let dryRunCmd := "rclone bisync \"" ++ options.localPath ++ "\" \""
            ++ options.remotePath ++ "\" " ++ flags ++ " --dry-run"
          earlyOrStep acc (opExec e dryRunCmd) (fun acc =>
            let resyncCmd := "rclone bisync \"" ++ options.localPath ++ "\" \""
              ++ options.remotePath ++ "\" " ++ flags
            let (cmdsG, r) := opExec e resyncCmd
            (acc ++ cmdsG, r))))
    if remoteExists then afterRemoteDir (cmdsA ++ cmdsB)
    else earlyOrStep (cmdsA ++ cmdsB) (createRemoteDir e options.remotePath) afterRemoteDir

/-- The incremental bisync command line of `performBidirectionalSync`. -/
def incrementalBisyncCmd (options : SyncOptions) : String :=
  "rclone bisync \"" ++ options.localPath ++ "\" \"" ++ options.remotePath
    ++ "\" " ++ buildRcloneFlags options

/-- Perform incremental bidirectional sync (`performBidirectionalSync`):
probe for bisync state; when absent delegate to `performInitialResync`,
otherwise run one incremental bisync invocation. -/
def performBidirectionalSync (e : Exec) (options : SyncOptions) : OpResult CommandResult :=
  let probe := bisyncStateExists e options.localPath options.remotePath
  if !probe.2 then
    let rest := performInitialResync e options
    (probe.1 ++ rest.1, rest.2)
  else
    let rest := opExec e (incrementalBisyncCmd options)
    (probe.1 ++ rest.1, rest.2)

/- Storage integration (`src/server/storage/storage-integration.ts`). -/

/-- Per-endpoint storage status (enum `StorageStatus`). -/
inductive StorageStatus where
  | NOT_CONFIGURED
  | SETUP_REQUIRED
  | CHECKING
  | INSTALLING
  | SYNCING
  | READY
  | ERROR
deriving Repr, DecidableEq

/-- Result of a storage setup operation (interface
`StorageSetupResult`). -/
structure StorageSetupResult where
  success : Bool
  status : StorageStatus
  message : Option String
  error : Option String
deriving Repr, DecidableEq

/-- Persisted workspace storage configuration, restricted to the fields
`setupOnServer` and `syncNow` read (`StorageConfig` of `config.ts`). -/
structure StorageConfig where
  enabled : Bool
  remoteRootPath : String
  rcloneConfigContent : Option String
deriving Repr, DecidableEq

/-- Environment of one `StorageIntegration` call for a single server:
the persisted configuration (`storageConfigManager.get()`), the
workspace-coherence check result (`validateWorkspace()`, empty string
meaning valid), the prior in-memory status map entry for the server
(`serverSetupStatus.get(serverId)`), and the executor oracle. -/
structure IntegrationEnv where
  serverId : String
  config : Option StorageConfig
  workspaceError : String
  priorStatus : Option StorageStatus
  exec : Exec

/-- Workspace-specific local path for a server
(`StorageIntegration.getLocalPath`): the server id with every character
outside `[a-zA-Z0-9-]` replaced by `_`, appended to the default local
path. -/
def getLocalPath (serverId : String) : String :=
  DEFAULT_LOCAL_PATH ++ "_"
    ++ ⟨serverId.toList.map (fun c => if c.isAlphanum || c == '-' then c else '_')⟩

/-- The already-set-up probe (`StorageIntegration.checkIfSetup`):
delegates to `isRcloneInstalled`. -/
def checkIfSetup (e : Exec) : List String × Bool := isRcloneInstalled e

/-- The method `StorageIntegration.installRcloneOnServer`: runs `installRclone` and
throws on an unsuccessful result. -/
def installRcloneOnServer (e : Exec) : OpResult Unit :=
  match installRclone e false with
  | (cmds, Except.error msg) => (cmds, Except.error msg)
  | (cmds, Except.ok result) =>
    if result.success then (cmds, Except.ok ())
    else (cmds, Except.error
      ("Rclone installation failed: " ++ result.error.getD "Installation failed"))

/-- The method `StorageIntegration.uploadRcloneConfigToServer` without its status
emission (the emitted `INSTALLING` is accounted for at the call site in
`setupOnServer`): runs `uploadRcloneConfig` at the default config path
and throws on an unsuccessful result. -/
def uploadRcloneConfigToServer (e : Exec) (configContent : String) : OpResult Unit :=
  match uploadRcloneConfig e configContent defaultRcloneConfigPath with
  | (cmds, Except.error msg) => (cmds, Except.error msg)
  | (cmds, Except.ok result) =>
    if result.success then (cmds, Except.ok ())
    else (cmds, Except.error
      ("Rclone config upload failed: " ++ result.error.getD "Config upload failed"))

/-- The method `StorageIntegration.performInitialSyncOperation`: runs
`performInitialResync` on the configured remote root and the
workspace-specific local path, verbosely, and throws on an unsuccessful
result. -/
def performInitialSyncOperation (e : Exec) (serverId remotePath : String) : OpResult Unit :=
  match performInitialResync e
      { remotePath := remotePath, localPath := getLocalPath serverId,
        excludePatterns := none, verbose := true, additionalFlags := none } with
  | (cmds, Except.error msg) => (cmds, Except.error msg)
  | (cmds, Except.ok result) =>
    if result.success then (cmds, Except.ok ())
    else (cmds, Except.error
      ("Initial sync failed: " ++ result.error.getD "Initial sync failed"))

/-- Observable outcome of one `setupOnServer` call: the statuses emitted
through `updateStatus` (each both stored in the map and fired as an
event, in order), the command lines issued, and the returned result. -/
structure SetupOutcome where
  events : List StorageStatus
  cmds : List String
  result : StorageSetupResult
deriving Repr, DecidableEq

/-- The failure result the catch block of `setupOnServer` returns for a
thrown error message. -/
def setupErrorResult (msg : String) : StorageSetupResult :=
  { success := false, status := StorageStatus.ERROR, message := none, error := some msg }

/-- The method `StorageIntegration.setupOnServer`: requires enabled configuration
and a coherent workspace, short-circuits to `READY` when the
already-set-up probe reports true, otherwise drives
install → upload-credentials → initial resync, updating status before
each phase; any step throwing ends the call with `ERROR`.  The second
`INSTALLING` emission comes from inside `uploadRcloneConfigToServer`
(`storage-integration.ts` line 467). -/
def setupOnServer (env : IntegrationEnv) : SetupOutcome :=
  match env.config with
  | none =>
    { events := [StorageStatus.NOT_CONFIGURED], cmds := [],
      result := { success := false, status := StorageStatus.NOT_CONFIGURED,
                  message := some "Storage not configured", error := none } }
  | some config =>
    if !config.enabled then
      { events := [StorageStatus.NOT_CONFIGURED], cmds := [],
        result := { success := false, status := StorageStatus.NOT_CONFIGURED,
                    message := some "Storage not configured", error := none } }
    else if !env.workspaceError.isEmpty then
      { events := [StorageStatus.ERROR], cmds := [],
        result := { success := false, status := StorageStatus.ERROR,
                    message := none, error := some env.workspaceError } }
    else
      let probe := checkIfSetup env.exec
      if probe.2 then
        { events := [StorageStatus.CHECKING, StorageStatus.READY], cmds := probe.1,
          result := { success := true, status := StorageStatus.READY,
                      message := some "Storage already configured", error := none } }
      else
        match installRcloneOnServer env.exec with
        | (cmds2, Except.error msg) =>
          { events := [StorageStatus.CHECKING, StorageStatus.INSTALLING,
                       StorageStatus.ERROR],
            cmds := probe.1 ++ cmds2, result := setupErrorResult msg }
        | (cmds2, Except.ok _) =>
          match config.rcloneConfigContent with
          | none =>
            { events := [StorageStatus.CHECKING, StorageStatus.INSTALLING,
                         StorageStatus.ERROR],
              cmds := probe.1 ++ cmds2,
              result := setupErrorResult "Rclone config content is missing" }
          | some content =>
            match uploadRcloneConfigToServer env.exec content with
            | (cmds3, Except.error msg) =>
              { events := [StorageStatus.CHECKING, StorageStatus.INSTALLING,
                           StorageStatus.INSTALLING, StorageStatus.ERROR],
                cmds := probe.1 ++ cmds2 ++ cmds3, result := setupErrorResult msg }
            | (cmds3, Except.ok _) =>
              match performInitialSyncOperation env.exec env.serverId
                  config.remoteRootPath with
              | (cmds4, Except.error msg) =>
                { events := [StorageStatus.CHECKING, StorageStatus.INSTALLING,
                             StorageStatus.INSTALLING, StorageStatus.SYNCING,
                             StorageStatus.ERROR],
                  cmds := probe.1 ++ cmds2 ++ cmds3 ++ cmds4,
                  result := setupErrorResult msg }
              | (cmds4, Except.ok _) =>
                { events := [StorageStatus.CHECKING, StorageStatus.INSTALLING,
                             StorageStatus.INSTALLING, StorageStatus.SYNCING,
                             StorageStatus.READY],
                  cmds := probe.1 ++ cmds2 ++ cmds3 ++ cmds4,
                  result := { success := true, status := StorageStatus.READY,
                              message := some "Storage configured successfully",
                              error := none } }

/-- Observable outcome of one `syncNow` call; `lastSyncRecorded` is
whether the persisted configuration was updated with a last-sync
timestamp. -/
structure SyncOutcome where
  events : List StorageStatus
  cmds : List String
  result : StorageSetupResult
  lastSyncRecorded : Bool
deriving Repr, DecidableEq

/-- The sync options `syncNow` passes to `performBidirectionalSync`. -/
def syncNowOptions (env : IntegrationEnv) (config : StorageConfig) : SyncOptions :=
  { remotePath := config.remoteRootPath, localPath := getLocalPath env.serverId,
    excludePatterns := none, verbose := true, additionalFlags := none }

/-- The method `StorageIntegration.syncNow`: requires enabled configuration and
current status `READY`; sets `SYNCING`, runs the bidirectional-sync
composite, on success returns to `READY` and records the last-sync
timestamp, on failure or a thrown error sets `ERROR` with the reported
message. -/
def syncNow (env : IntegrationEnv) : SyncOutcome :=
  match env.config with
  | none =>
    { events := [], cmds := [],
      result := { success := false, status := StorageStatus.NOT_CONFIGURED,
                  message := some "Storage not configured", error := none },
      lastSyncRecorded := false }
  | some config =>
    if !config.enabled then
      { events := [], cmds := [],
        result := { success := false, status := StorageStatus.NOT_CONFIGURED,
                    message := some "Storage not configured", error := none },
        lastSyncRecorded := false }
    else
      let currentStatus := env.priorStatus.getD StorageStatus.NOT_CONFIGURED
      if currentStatus ≠ StorageStatus.READY then
        { events := [], cmds := [],
          result := { success := false, status := currentStatus,
                      message := some "Storage not ready for sync", error := none },
          lastSyncRecorded := false }
      else
        match performBidirectionalSync env.exec (syncNowOptions env config) with
        | (cmds, Except.error msg) =>
          { events := [StorageStatus.SYNCING, StorageStatus.ERROR], cmds := cmds,
            result := setupErrorResult msg, lastSyncRecorded := false }
        | (cmds, Except.ok result) =>
          if !result.success then
            { events := [StorageStatus.SYNCING, StorageStatus.ERROR], cmds := cmds,
              result := setupErrorResult
                ("Sync failed: " ++ result.error.getD "Sync failed"),
              lastSyncRecorded := false }
          else
            { events := [StorageStatus.SYNCING, StorageStatus.READY], cmds := cmds,
              result := { success := true, status := StorageStatus.READY,
                          message := some "Sync completed successfully", error := none },
              lastSyncRecorded := true }

/-- Collapse each maximal run of equal adjacent statuses to a single
occurrence (used to state the claimed order of emitted events). -/
def collapseAdjacentRepeats : List StorageStatus → List StorageStatus
  | [] => []
  | [s] => [s]
  | s :: t :: rest =>
    if s == t then collapseAdjacentRepeats (t :: rest)
    else s :: collapseAdjacentRepeats (t :: rest)

/-- Concrete environment for the C6 witness: fresh endpoint, enabled
configuration, rclone not yet installed, every other command succeeding. -/
def C6env : IntegrationEnv :=
  { serverId := "server-1",
    config := some { enabled := true, remoteRootPath := "drive1:/per/t",
                     rcloneConfigContent := some "QUJD" },
    workspaceError := "", priorStatus := none,
    exec := fun cmd =>
      if cmd == "command -v rclone" then
        Except.ok { success := false, output := "", exitCode := some 1, error := none }
      else
        Except.ok { success := true, output := "", exitCode := some 0, error := none } }

/-- Concrete environment for the C7 witness: enabled configuration with
rclone already installed on the endpoint. -/
def C7env : IntegrationEnv :=
  { serverId := "server-1",
    config := some { enabled := true, remoteRootPath := "drive1:/per/t",
                     rcloneConfigContent := some "QUJD" },
    workspaceError := "", priorStatus := none,
    exec := fun _ =>
      Except.ok { success := true, output := "", exitCode := some 0, error := none } }

/-- Persisted configuration for the C8 witness. -/
def C8config : StorageConfig :=
  { enabled := true, remoteRootPath := "drive1:/per/t",
    rcloneConfigContent := some "QUJD" }

/-- Concrete environment for the C8 witness: status `READY` and an
all-success executor. -/
def C8env : IntegrationEnv :=
  { serverId := "server-1", config := some C8config,
    workspaceError := "", priorStatus := some StorageStatus.READY,
    exec := fun _ =>
      Except.ok { success := true, output := "", exitCode := some 0, error := none } }

/- Theorems. -/

/-- Helper: chunks in which `isCmdDone` finds no marker leave the promise
pending. -/
theorem noMarkerChunks_settled_none (cs : List String) :
    ∀ st : ExecCallState, (∀ s ∈ cs, isCmdDone s = none) → st.settled = none →
      ((cs.map TermEvent.chunk).foldl execStep st).settled = none := by
  induction cs with
  | nil => intro st _ hst; simpa using hst
  | cons c cs ih =>
    intro st h hst
    simp only [List.map_cons, List.foldl_cons]
    refine ih _ (fun s hs => h s (List.mem_cons_of_mem _ hs)) ?_
    have hc : isCmdDone c = none := h c (List.mem_cons_self _ _)
    simp [execStep, hc, hst]

/-- Claim C1 (counterexample): with the marker split across the two
inbound chunks `"__CMD_COMP"` and `"LETE__:exit=0"`, the accumulated
buffer contains the full marker pattern, yet the call does not resolve
(`execute` checks `isCmdDone` on the latest chunk only,
`terminal-executor.ts` line 124); the buffer-scanning variant described
by the spec would have resolved. -/
theorem C1_split_marker_counterexample :
    (execRun [TermEvent.chunk "__CMD_COMP", TermEvent.chunk "LETE__:exit=0"]).settled
      = none
    ∧ isCmdDone
        (execRun [TermEvent.chunk "__CMD_COMP", TermEvent.chunk "LETE__:exit=0"]).buffer
      = some 0
    ∧ (execRunBufferScan
        [TermEvent.chunk "__CMD_COMP", TermEvent.chunk "LETE__:exit=0"]).settled
      = some (Except.ok
          { success := true, output := "__CMD_COMPLETE__:exit=0",
            exitCode := some 0, error := none }) := by
  refine ⟨?_, ?_, ?_⟩ <;> decide

/-- Claim C1 (amended): after each inbound chunk the completion-marker
pattern is searched in the latest normalized chunk only, not in the whole
accumulated buffer; when the pending call's latest chunk contains the
marker with exit code `ec`, the call resolves with
`\x7b success: ec == 0, output: buffer, exitCode: ec \x7d` where the
output is the whole accumulated buffer; a marker split across two inbound
chunks is not detected. -/
theorem C1_marker_checked_per_chunk (st : ExecCallState) (s : String) :
    (execStep st (TermEvent.chunk s)).buffer = st.buffer ++ s
    ∧ (st.settled = none → isCmdDone s = none →
        (execStep st (TermEvent.chunk s)).settled = none)
    ∧ (∀ ec : Nat, st.settled = none → isCmdDone s = some ec →
        (execStep st (TermEvent.chunk s)).settled =
          some (Except.ok
            { success := ec == 0, output := st.buffer ++ s,
              exitCode := some ec, error := none })) := by
  refine ⟨?_, ?_, ?_⟩
  · cases h : isCmdDone s <;> simp [execStep, h]
  · intro hst hm; simp [execStep, hm, hst]
  · intro ec hst hm; simp [execStep, hm, hst]

/-- Witness for `C1_marker_checked_per_chunk` at a concrete chunk
carrying exit code 7. -/
theorem C1_marker_checked_per_chunk_witness :
    (execStep execCallInit (TermEvent.chunk "__CMD_COMPLETE__:exit=7")).settled =
      some (Except.ok
        { success := 7 == 0, output := "" ++ "__CMD_COMPLETE__:exit=7",
          exitCode := some 7, error := none }) :=
  (C1_marker_checked_per_chunk execCallInit "__CMD_COMPLETE__:exit=7").2.2
    7 rfl (by decide)

/-- Claim C2: when no inbound chunk carries the completion marker and the
per-command timeout fires, the `execute` call rejects with the timeout
error and the channel is force-closed, so `isConnected` is false
afterwards. -/
theorem C2_timeout_rejects_and_disconnects (cs : List String)
    (h : ∀ s ∈ cs, isCmdDone s = none) :
    (execRun (cs.map TermEvent.chunk ++ [TermEvent.timeoutFire])).settled
      = some (Except.error "TIMEOUT: Cmd too long to complete!")
    ∧ (execRun (cs.map TermEvent.chunk ++ [TermEvent.timeoutFire])).wsOpen = false := by
  have hmid := noMarkerChunks_settled_none cs execCallInit h rfl
  constructor
  · simp [execRun, List.foldl_append, execStep]
    simp [execRun] at hmid
    simp [hmid]
  · simp [execRun, List.foldl_append, execStep]

/-- Witness for `C2_timeout_rejects_and_disconnects` on a run that
receives one markerless chunk before the timeout fires. -/
theorem C2_timeout_witness :
    (execRun ([TermEvent.chunk "ab"] ++ [TermEvent.timeoutFire])).settled
      = some (Except.error "TIMEOUT: Cmd too long to complete!")
    ∧ (execRun ([TermEvent.chunk "ab"] ++ [TermEvent.timeoutFire])).wsOpen = false :=
  C2_timeout_rejects_and_disconnects ["ab"] (by decide)

/-- Claim C3: `CMD_TIMEOUT` is 10 minutes (600000 ms) and the timer armed
at the start of `execute` is never cancelled (`terminal-executor.ts` has
no `clearTimeout`): whenever it fires, `disconnect()` closes the channel
even when the call already resolved, and an earlier settlement is
unchanged by the firing, so a later command must re-establish the
connection. -/
theorem C3_timeout_timer_never_cancelled (evs : List TermEvent) :
    CMD_TIMEOUT = 600000
    ∧ (execRun (evs ++ [TermEvent.timeoutFire])).wsOpen = false
    ∧ (∀ r, (execRun evs).settled = some r →
        (execRun (evs ++ [TermEvent.timeoutFire])).settled = some r) := by
  refine ⟨rfl, ?_, ?_⟩
  · simp [execRun, List.foldl_append, execStep]
  · intro r hr
    simp only [execRun, List.foldl_append] at hr ⊢
    simp [execStep, hr]

/-- Witness for `C3_timeout_timer_never_cancelled`: a command that
completed successfully, after which the timer fires anyway and closes the
channel while the resolved value is preserved. -/
theorem C3_timeout_timer_witness :
    (execRun ([TermEvent.chunk "__CMD_COMPLETE__:exit=0"] ++ [TermEvent.timeoutFire])).settled
      = some (Except.ok
          { success := true, output := "__CMD_COMPLETE__:exit=0",
            exitCode := some 0, error := none })
    ∧ (execRun ([TermEvent.chunk "__CMD_COMPLETE__:exit=0"] ++ [TermEvent.timeoutFire])).wsOpen
      = false := by
  constructor
  · exact (C3_timeout_timer_never_cancelled [TermEvent.chunk "__CMD_COMPLETE__:exit=0"]).2.2
      _ (by decide)
  · exact (C3_timeout_timer_never_cancelled [TermEvent.chunk "__CMD_COMPLETE__:exit=0"]).2.1

/-- Claim C4: the sync-state path sanitizer is the three-phase
replace-collapse-strip function, and evaluates as stated on the three
given inputs (hyphens preserved verbatim). -/
theorem C4_sanitizePathForBisync :
    (∀ s : String, sanitizePathForBisync s =
      ⟨stripLeadingUnderscores (collapseUnderscores (replaceSlashColon s.toList))⟩)
    ∧ sanitizePathForBisync "/content/abc-123" = "content_abc-123"
    ∧ sanitizePathForBisync "drive1:/per/testing/t1" = "drive1_per_testing_t1"
    ∧ sanitizePathForBisync "///a/b" = "a_b" := by
  refine ⟨fun s => rfl, ?_, ?_, ?_⟩ <;> decide

/-- Helper: the state probe always issues exactly the one `test -f`
command. -/
theorem bisyncStateExists_cmds (e : Exec) (localPath remotePath : String) :
    (bisyncStateExists e localPath remotePath).1
      = ["test -f " ++ bisyncStateFile localPath remotePath] := by
  unfold bisyncStateExists opExec
  cases e ("test -f " ++ bisyncStateFile localPath remotePath) <;> rfl

/-- Claim C5 (counterexample): with an executor on which every command
returns a failing result, the bisync state is reported absent, yet
`performBidirectionalSync` does not issue exactly the command sequence of
`performInitialResync`: it issues the `test -f` state probe first. -/
theorem C5_command_sequence_counterexample :
    ((bisyncStateExists
        (fun _ => Except.ok { success := false, output := "", exitCode := some 1, error := none })
        "/content/x" "drive1:/per/t").2 = false)
    ∧ (performBidirectionalSync
        (fun _ => Except.ok { success := false, output := "", exitCode := some 1, error := none })
        { remotePath := "drive1:/per/t", localPath := "/content/x",
          excludePatterns := none, verbose := false, additionalFlags := none }).1
      ≠ (performInitialResync
        (fun _ => Except.ok { success := false, output := "", exitCode := some 1, error := none })
        { remotePath := "drive1:/per/t", localPath := "/content/x",
          excludePatterns := none, verbose := false, additionalFlags := none }).1 := by
  constructor <;> decide

/-- Claim C5 (amended): for every executor and sync options, when the
bisync state identifier for the (local, remote) pair does not exist,
`performBidirectionalSync` delegates to `performInitialResync`: it issues
the state-probe command followed by exactly the command sequence
`performInitialResync` would issue, and returns `performInitialResync`'s
result; when the state exists, it issues the probe followed by exactly
one incremental bisync invocation, whose result it returns. -/
theorem C5_incremental_fallback_equivalence (e : Exec) (options : SyncOptions) :
    ((bisyncStateExists e options.localPath options.remotePath).2 = false →
      performBidirectionalSync e options =
        (("test -f " ++ bisyncStateFile options.localPath options.remotePath)
            :: (performInitialResync e options).1,
         (performInitialResync e options).2))
    ∧ ((bisyncStateExists e options.localPath options.remotePath).2 = true →
      performBidirectionalSync e options =
        (["test -f " ++ bisyncStateFile options.localPath options.remotePath,
          incrementalBisyncCmd options],
         e (incrementalBisyncCmd options))) := by
  have hc := bisyncStateExists_cmds e options.localPath options.remotePath
  constructor
  · intro h
    simp [performBidirectionalSync, h, hc]
  · intro h
    simp [performBidirectionalSync, h, hc, opExec]

/-- Witness for `C5_incremental_fallback_equivalence`: an executor on
which every command succeeds reports the state present and issues the
probe plus one incremental bisync call. -/
theorem C5_incremental_fallback_witness :
    performBidirectionalSync
      (fun _ => Except.ok { success := true, output := "", exitCode := some 0, error := none })
      { remotePath := "drive1:/per/t", localPath := "/content/x",
        excludePatterns := none, verbose := false, additionalFlags := none } =
      (["test -f " ++ bisyncStateFile "/content/x" "drive1:/per/t",
        incrementalBisyncCmd
          { remotePath := "drive1:/per/t", localPath := "/content/x",
            excludePatterns := none, verbose := false, additionalFlags := none }],
       (fun _ => Except.ok { success := true, output := "", exitCode := some 0, error := none } :
         Exec) (incrementalBisyncCmd
          { remotePath := "drive1:/per/t", localPath := "/content/x",
            excludePatterns := none, verbose := false, additionalFlags := none })) :=
  (C5_incremental_fallback_equivalence
    (fun _ => Except.ok { success := true, output := "", exitCode := some 0, error := none })
    { remotePath := "drive1:/per/t", localPath := "/content/x",
      excludePatterns := none, verbose := false, additionalFlags := none }).2 (by decide)

/-- Claim C9: `uploadRcloneConfig` issues exactly three sequential
commands, directory creation, base64-decoded write, then `chmod 600`,
each checked for success before the next; the first failing step's
result is returned immediately and later commands are not issued. -/
theorem C9_upload_three_sequential_steps (e : Exec) (content configPath : String)
    (r1 r2 r3 : CommandResult)
    (h1 : e ("mkdir -p " ++ dropLastPathComponent configPath) = Except.ok r1)
    (h2 : e ("echo " ++ content ++ " | base64 -d > " ++ configPath) = Except.ok r2)
    (h3 : e ("chmod 600 " ++ configPath) = Except.ok r3) :
    (r1.success = false →
      uploadRcloneConfig e content configPath =
        (["mkdir -p " ++ dropLastPathComponent configPath], Except.ok r1))
    ∧ (r1.success = true → r2.success = false →
      uploadRcloneConfig e content configPath =
        (["mkdir -p " ++ dropLastPathComponent configPath,
          "echo " ++ content ++ " | base64 -d > " ++ configPath], Except.ok r2))
    ∧ (r1.success = true → r2.success = true →
      uploadRcloneConfig e content configPath =
        (["mkdir -p " ++ dropLastPathComponent configPath,
          "echo " ++ content ++ " | base64 -d > " ++ configPath,
          "chmod 600 " ++ configPath], Except.ok r3)) := by
  refine ⟨?_, ?_, ?_⟩
  · intro hf
    simp [uploadRcloneConfig, createRcloneConfigDir, createLocalDir, opBind, opExec, h1, hf]
  · intro ht hf
    simp [uploadRcloneConfig, createRcloneConfigDir, createLocalDir, opBind, opExec,
      h1, h2, ht, hf]
  · intro ht1 ht2
    simp [uploadRcloneConfig, createRcloneConfigDir, createLocalDir, opBind, opExec,
      h1, h2, h3, ht1, ht2]

/-- Witness for `C9_upload_three_sequential_steps`: all three steps
succeed on an all-success executor, so all three commands are issued. -/
theorem C9_upload_three_sequential_steps_witness :
    uploadRcloneConfig
      (fun _ => Except.ok { success := true, output := "", exitCode := some 0, error := none })
      "QUJD" "~/.config/rclone/rclone.conf" =
      (["mkdir -p " ++ dropLastPathComponent "~/.config/rclone/rclone.conf",
        "echo " ++ "QUJD" ++ " | base64 -d > " ++ "~/.config/rclone/rclone.conf",
        "chmod 600 " ++ "~/.config/rclone/rclone.conf"],
       Except.ok { success := true, output := "", exitCode := some 0, error := none }) :=
  (C9_upload_three_sequential_steps
    (fun _ => Except.ok { success := true, output := "", exitCode := some 0, error := none })
    "QUJD" "~/.config/rclone/rclone.conf"
    { success := true, output := "", exitCode := some 0, error := none }
    { success := true, output := "", exitCode := some 0, error := none }
    { success := true, output := "", exitCode := some 0, error := none }
    rfl rfl rfl).2.2 rfl rfl

/-- Claim C10: the boolean probes `isRcloneInstalled` and
`remotePathExists` never propagate a thrown executor error: on an
executor whose `execute` call throws, each returns `false` instead of
raising. -/
theorem C10_probes_never_propagate (e : Exec) (remotePath msg1 msg2 : String)
    (h1 : e "command -v rclone" = Except.error msg1)
    (h2 : e ("rclone lsd \"" ++ remotePath ++ "\" 2>&1") = Except.error msg2) :
    isRcloneInstalled e = (["command -v rclone"], false)
    ∧ remotePathExists e remotePath =
        (["rclone lsd \"" ++ remotePath ++ "\" 2>&1"], false) := by
  constructor
  · simp [isRcloneInstalled, opExec, h1]
  · simp [remotePathExists, opExec, h2]

/-- Witness for `C10_probes_never_propagate` on an executor that throws
on every command. -/
theorem C10_probes_never_propagate_witness :
    isRcloneInstalled (fun _ => Except.error "socket closed") = (["command -v rclone"], false)
    ∧ remotePathExists (fun _ => Except.error "socket closed") "drive1:/per/t" =
        (["rclone lsd \"" ++ "drive1:/per/t" ++ "\" 2>&1"], false) :=
  C10_probes_never_propagate (fun _ => Except.error "socket closed")
    "drive1:/per/t" "socket closed" "socket closed" rfl rfl

/-- Helper: `isRcloneInstalled` always issues exactly the one
`command -v rclone` probe. -/
theorem isRcloneInstalled_cmds (e : Exec) :
    (isRcloneInstalled e).1 = ["command -v rclone"] := by
  unfold isRcloneInstalled opExec
  cases e "command -v rclone" <;> rfl

/-- Helper: on an enabled, workspace-coherent configuration whose
already-set-up probe reports false, `setupOnServer` ends in exactly one
of four event shapes, and succeeds exactly on the full
install-upload-resync shape. -/
theorem setupOnServer_fresh_shapes (env : IntegrationEnv) (config : StorageConfig)
    (hconfig : env.config = some config) (henabled : config.enabled = true)
    (hws : env.workspaceError = "")
    (hnotsetup : (checkIfSetup env.exec).2 = false) :
    ((setupOnServer env).result.success = true
      ∧ (setupOnServer env).events =
        [StorageStatus.CHECKING, StorageStatus.INSTALLING, StorageStatus.INSTALLING,
         StorageStatus.SYNCING, StorageStatus.READY])
    ∨ ((setupOnServer env).result.success = false
      ∧ ((setupOnServer env).events =
            [StorageStatus.CHECKING, StorageStatus.INSTALLING, StorageStatus.ERROR]
        ∨ (setupOnServer env).events =
            [StorageStatus.CHECKING, StorageStatus.INSTALLING,
             StorageStatus.INSTALLING, StorageStatus.ERROR]
        ∨ (setupOnServer env).events =
            [StorageStatus.CHECKING, StorageStatus.INSTALLING,
             StorageStatus.INSTALLING, StorageStatus.SYNCING, StorageStatus.ERROR])) := by
  unfold setupOnServer
  rw [hconfig]
  simp only [henabled, hws, hnotsetup, Bool.not_true, String.isEmpty,
    Bool.false_eq_true, if_false]
  rcases h2 : installRcloneOnServer env.exec with ⟨cmds2, r2⟩
  cases r2 with
  | error msg => simp [h2, setupErrorResult]
  | ok u =>
    cases hcc : config.rcloneConfigContent with
    | none => simp [h2, hcc, setupErrorResult]
    | some content =>
      rcases h3 : uploadRcloneConfigToServer env.exec content with ⟨cmds3, r3⟩
      cases r3 with
      | error msg => simp [h2, hcc, h3, setupErrorResult]
      | ok u3 =>
        rcases h4 : performInitialSyncOperation env.exec env.serverId
            config.remoteRootPath with ⟨cmds4, r4⟩
        cases r4 with
        | error msg => simp [h2, hcc, h3, h4, setupErrorResult]
        | ok u4 => simp [h2, hcc, h3, h4]

/-- Claim C6: on a fresh endpoint (no prior status entry) with enabled,
workspace-coherent configuration whose already-set-up probe reports
false, a `setupOnServer` call that succeeds emits exactly
`CHECKING, INSTALLING, INSTALLING, SYNCING, READY` (collapsing the
adjacent repeat: `CHECKING → INSTALLING → SYNCING → READY`), with
`READY` emitted once and no `ERROR`; a call in which a step fails emits
`ERROR` exactly once, as the final event, and never emits `READY`. -/
theorem C6_setup_status_event_order (env : IntegrationEnv) (config : StorageConfig)
    (hconfig : env.config = some config) (henabled : config.enabled = true)
    (hws : env.workspaceError = "") (_hfresh : env.priorStatus = none)
    (hnotsetup : (checkIfSetup env.exec).2 = false) :
    ((setupOnServer env).result.success = true →
      (setupOnServer env).events =
        [StorageStatus.CHECKING, StorageStatus.INSTALLING, StorageStatus.INSTALLING,
         StorageStatus.SYNCING, StorageStatus.READY]
      ∧ collapseAdjacentRepeats (setupOnServer env).events =
        [StorageStatus.CHECKING, StorageStatus.INSTALLING, StorageStatus.SYNCING,
         StorageStatus.READY]
      ∧ (setupOnServer env).events.count StorageStatus.READY = 1
      ∧ StorageStatus.ERROR ∉ (setupOnServer env).events)
    ∧ ((setupOnServer env).result.success = false →
      (setupOnServer env).events.count StorageStatus.ERROR = 1
      ∧ StorageStatus.READY ∉ (setupOnServer env).events
      ∧ (setupOnServer env).events.getLast? = some StorageStatus.ERROR) := by
  rcases setupOnServer_fresh_shapes env config hconfig henabled hws hnotsetup with
    ⟨hsuc, hev⟩ | ⟨hsuc, hev | hev | hev⟩
  · exact ⟨fun _ => by rw [hev]; exact ⟨rfl, by decide, by decide, by decide⟩,
           fun h => absurd (hsuc.symm.trans h) (by decide)⟩
  · exact ⟨fun h => absurd (hsuc.symm.trans h) (by decide),
           fun _ => by rw [hev]; exact ⟨by decide, by decide, by decide⟩⟩
  · exact ⟨fun h => absurd (hsuc.symm.trans h) (by decide),
           fun _ => by rw [hev]; exact ⟨by decide, by decide, by decide⟩⟩
  · exact ⟨fun h => absurd (hsuc.symm.trans h) (by decide),
           fun _ => by rw [hev]; exact ⟨by decide, by decide, by decide⟩⟩

/-- Witness for `C6_setup_status_event_order`: on `C6env`, setup succeeds
and emits exactly `CHECKING, INSTALLING, INSTALLING, SYNCING, READY`. -/
theorem C6_setup_status_event_order_witness :
    (setupOnServer C6env).events =
      [StorageStatus.CHECKING, StorageStatus.INSTALLING, StorageStatus.INSTALLING,
       StorageStatus.SYNCING, StorageStatus.READY] :=
  ((C6_setup_status_event_order C6env
      { enabled := true, remoteRootPath := "drive1:/per/t",
        rcloneConfigContent := some "QUJD" }
      rfl rfl rfl rfl (by decide)).1 (by decide)).1

/-- Claim C7: when the already-set-up probe (`checkIfSetup`, the
rclone-installed check) reports true on an enabled, workspace-coherent
configuration, `setupOnServer` short-circuits: it emits `CHECKING` then
`READY`, returns success, and the only command issued is the probe
itself, so no install, credential-upload or resync command runs. -/
theorem C7_setup_short_circuit (env : IntegrationEnv) (config : StorageConfig)
    (hconfig : env.config = some config) (henabled : config.enabled = true)
    (hws : env.workspaceError = "")
    (hsetup : (checkIfSetup env.exec).2 = true) :
    setupOnServer env =
      { events := [StorageStatus.CHECKING, StorageStatus.READY],
        cmds := ["command -v rclone"],
        result := { success := true, status := StorageStatus.READY,
                    message := some "Storage already configured", error := none } } := by
  have hc : (checkIfSetup env.exec).1 = ["command -v rclone"] :=
    isRcloneInstalled_cmds env.exec
  unfold setupOnServer
  rw [hconfig]
  simp [henabled, hws, hsetup, hc, String.isEmpty]

/-- Witness for `C7_setup_short_circuit` on `C7env`. -/
theorem C7_setup_short_circuit_witness :
    setupOnServer C7env =
      { events := [StorageStatus.CHECKING, StorageStatus.READY],
        cmds := ["command -v rclone"],
        result := { success := true, status := StorageStatus.READY,
                    message := some "Storage already configured", error := none } } :=
  C7_setup_short_circuit C7env
    { enabled := true, remoteRootPath := "drive1:/per/t",
      rcloneConfigContent := some "QUJD" }
    rfl rfl rfl (by decide)

/-- Claim C8: with an enabled configuration, a `syncNow` call whose
endpoint status is not `READY` returns a failure carrying that status,
issues no command and fires no status change; with status `READY` it
emits `SYNCING`, runs the bidirectional-sync composite, and then either
returns to `READY` recording the last-sync timestamp (result
successful), or emits `ERROR` with the failed operation's reported
message (result unsuccessful or the composite throwing). -/
theorem C8_syncNow_requires_ready (env : IntegrationEnv) (config : StorageConfig)
    (hconfig : env.config = some config) (henabled : config.enabled = true) :
    (env.priorStatus.getD StorageStatus.NOT_CONFIGURED ≠ StorageStatus.READY →
      syncNow env =
        { events := [], cmds := [],
          result := { success := false,
                      status := env.priorStatus.getD StorageStatus.NOT_CONFIGURED,
                      message := some "Storage not ready for sync", error := none },
          lastSyncRecorded := false })
    ∧ (env.priorStatus.getD StorageStatus.NOT_CONFIGURED = StorageStatus.READY →
      (∀ cmds r,
        performBidirectionalSync env.exec (syncNowOptions env config)
          = (cmds, Except.ok r) →
        (r.success = true →
          syncNow env =
            { events := [StorageStatus.SYNCING, StorageStatus.READY], cmds := cmds,
              result := { success := true, status := StorageStatus.READY,
                          message := some "Sync completed successfully", error := none },
              lastSyncRecorded := true })
        ∧ (r.success = false →
          syncNow env =
            { events := [StorageStatus.SYNCING, StorageStatus.ERROR], cmds := cmds,
              result := setupErrorResult
                ("Sync failed: " ++ r.error.getD "Sync failed"),
              lastSyncRecorded := false }))
      ∧ (∀ cmds msg,
        performBidirectionalSync env.exec (syncNowOptions env config)
          = (cmds, Except.error msg) →
        syncNow env =
          { events := [StorageStatus.SYNCING, StorageStatus.ERROR], cmds := cmds,
            result := setupErrorResult msg, lastSyncRecorded := false })) := by
  constructor
  · intro hne
    unfold syncNow
    rw [hconfig]
    simp [henabled, hne]
  · intro heq
    constructor
    · intro cmds r hperf
      constructor
      · intro hsucc
        unfold syncNow
        rw [hconfig]
        simp [henabled, heq, hperf, hsucc]
      · intro hfail
        unfold syncNow
        rw [hconfig]
        simp [henabled, heq, hperf, hfail, setupErrorResult]
    · intro cmds msg hperf
      unfold syncNow
      rw [hconfig]
      simp [henabled, heq, hperf, setupErrorResult]

set_option maxRecDepth 10000 in
/-- Witness for `C8_syncNow_requires_ready`: on `C8env`, `syncNow` emits
`SYNCING` then `READY` and records the last-sync timestamp. -/
theorem C8_syncNow_requires_ready_witness :
    syncNow C8env =
      { events := [StorageStatus.SYNCING, StorageStatus.READY],
        cmds := (performBidirectionalSync C8env.exec (syncNowOptions C8env C8config)).1,
        result := { success := true, status := StorageStatus.READY,
                    message := some "Sync completed successfully", error := none },
        lastSyncRecorded := true } :=
  ((((C8_syncNow_requires_ready C8env C8config rfl rfl).2 (by decide)).1
    (performBidirectionalSync C8env.exec (syncNowOptions C8env C8config)).1
    { success := true, output := "", exitCode := some 0, error := none }
    (by decide)).1) rfl
